import Mathlib

/-!
Verification of the detection → alert → response pipeline.

The development shallowly embeds three source modules:
* the ensemble scoring loop of `AnomalyDetectionEngine.detect`
  (src/detection/engine.py),
* the alert lifecycle of `AlertManager` (src/alerting/manager.py),
* the response policy and action lifecycle of `AutomatedResponseSystem`
  (src/response/automated_response.py).

Floating-point values are modelled as rationals, timestamps as naturals
(ISO timestamp strings compare lexicographically, which agrees with the
chronological order that the naturals give), and Python dictionaries as
insertion-ordered association lists.
-/

namespace SmoothOperator

/-! ## Ensemble scoring engine (`AnomalyDetectionEngine.detect`) -/

/-- One detector as seen by the loop in `AnomalyDetectionEngine.detect`:
`is_trained` mirrors `detector.is_trained`; `outcome` is `some (labels, scores)`
when `detector.predict(features)` returns, and `none` when it raises. -/
structure DetectorRun where
  is_trained : Bool
  outcome : Option (List ℚ × List ℚ)

/-- The rows of `all_predictions` and `all_scores` built by the detector loop:
an untrained detector is skipped (`continue`), while a detector whose
`predict` raises contributes `np.zeros(len(features))` to both maps.
`n` is the batch length `len(features)`. -/
def collectRows (n : Nat) : List DetectorRun → List (List ℚ) × List (List ℚ)
  | [] => ([], [])
  | d :: ds =>
    let rest := collectRows n ds
    if d.is_trained then
      match d.outcome with
      | some r => (r.1 :: rest.1, r.2 :: rest.2)
      | none => (List.replicate n 0 :: rest.1, List.replicate n 0 :: rest.2)
    else rest

/-- Column mean over stacked rows, `np.mean(array, axis=0)` at column `i`.
Out-of-range entries read as 0, matching rows that all have length `n`. -/
def colMean (rows : List (List ℚ)) (i : Nat) : ℚ :=
  (rows.map (fun r => r.getD i 0)).sum / (rows.length : ℚ)

/-- The ensemble label for sample `i`:
`(np.mean(pred_array, axis=0) >= 0.5)`, with the `if all_predictions:` guard
sending an empty stack to label 0. -/
def detectLabel (n : Nat) (ds : List DetectorRun) (i : Nat) : Bool :=
  let ps := (collectRows n ds).1
  if ps.isEmpty then false else decide (colMean ps i ≥ 1/2)

/-- The pre-normalization ensemble score for sample `i`:
`np.mean(score_array, axis=0)`, 0 for an empty stack. -/
def detectEnsembleScore (n : Nat) (ds : List DetectorRun) (i : Nat) : ℚ :=
  let ss := (collectRows n ds).2
  if ss.isEmpty then 0 else colMean ss i

/-- The vector `ensemble_scores` over the batch. -/
def ensembleScoresVec (n : Nat) (ds : List DetectorRun) : List ℚ :=
  (List.range n).map (fun i => detectEnsembleScore n ds i)

/-- Maximum of a list of rationals, `ndarray.max()` on a nonempty vector. -/
def listMax : List ℚ → ℚ
  | [] => 0
  | [a] => a
  | a :: b :: r => max a (listMax (b :: r))

/-- Minimum of a list of rationals, `ndarray.min()` on a nonempty vector. -/
def listMin : List ℚ → ℚ
  | [] => 0
  | [a] => a
  | a :: b :: r => min a (listMin (b :: r))

/-- Score normalization in `detect`: rescale by the range when
`score_range > 0`; otherwise pass the scores through when
`ensemble_scores.max() <= 1.0`, else replace them with `np.ones`. -/
def normalizeScores (scores : List ℚ) : List ℚ :=
  let mx := listMax scores
  let mn := listMin scores
  if mx - mn > 0 then scores.map (fun s => (s - mn) / (mx - mn))
  else if mx ≤ 1 then scores
  else List.replicate scores.length 1

/-- The vector `normalized_scores` over the batch. -/
def normalizedScoresVec (n : Nat) (ds : List DetectorRun) : List ℚ :=
  normalizeScores (ensembleScoresVec n ds)

/-- Number of trained detectors (the rows stacked by the loop, since an
errored trained detector still contributes a zero row). -/
def trainedCount (ds : List DetectorRun) : Nat :=
  (ds.filter (fun d => d.is_trained)).length

/-- Sum, over the trained detectors that did not error, of the label each
produced for sample `i`. -/
def okLabelSum (n : Nat) (ds : List DetectorRun) (i : Nat) : ℚ :=
  (ds.map (fun d =>
    if d.is_trained then
      match d.outcome with
      | some r => r.1.getD i 0
      | none => 0
    else 0)).sum

/-- Sum, over the trained detectors that did not error, of the score each
produced for sample `i`. -/
def okScoreSum (n : Nat) (ds : List DetectorRun) (i : Nat) : ℚ :=
  (ds.map (fun d =>
    if d.is_trained then
      match d.outcome with
      | some r => r.2.getD i 0
      | none => 0
    else 0)).sum

/-- Detector list with the errored detectors removed, the reading of the
ensemble under which an errored detector is excluded from the vote. -/
def excludeErrored (ds : List DetectorRun) : List DetectorRun :=
  ds.filter (fun d => d.outcome.isSome)

/-! ## Alert lifecycle (`AlertManager`)

An alert id `f"{device_id}_{utcnow().timestamp()}"` is modelled as the pair
of the device id and the creation time; `self.active_alerts` is an
insertion-ordered association list over such keys, and `self.alert_history`
keeps the ids of its entries (the Python list holds references to the same
mutable dicts). Severity strings `P0`..`P4` are modelled as the naturals
0..4, so that the comparison `int(severity[1:])` is the order on ℕ and
`AlertSeverity[severity].value` is a derived projection that is not
modelled. -/

/-- A detection result as consumed by `AlertManager.create_alert`; the
`severity` field carries the `detection_result.get('severity', 'P4')`
default already applied. -/
structure DetectionResult where
  device_id : String
  device_type : String
  sector : String
  is_anomaly : Bool
  anomaly_score : ℚ
  detector_votes : List (String × Nat)
  severity : Nat
deriving Repr, DecidableEq

/-- The informational content of the string built by
`AlertManager._generate_description`: the device coordinates, the score and
the names of the detectors that voted 1. The concrete text formatting is
not modelled. -/
structure Desc where
  device_id : String
  device_type : String
  sector : String
  score : ℚ
  detected_by : List String
deriving Repr, DecidableEq

/-- Embedding of `AlertManager._generate_description`. -/
def generateDescription (det : DetectionResult) : Desc :=
  { device_id := det.device_id
    device_type := det.device_type
    sector := det.sector
    score := det.anomaly_score
    detected_by := (det.detector_votes.filter (fun v => v.2 == 1)).map (fun v => v.1) }

/-- An alert dict. `created_at` is the creation instant embedded in the
alert id; `timestamp` is the mutable `timestamp` field, refreshed on every
update. -/
structure Alert where
  device_id : String
  device_type : String
  sector : String
  created_at : Nat
  timestamp : Nat
  severity : Nat
  anomaly_score : ℚ
  detector_votes : List (String × Nat)
  description : Desc
  status : String
  acknowledged : Bool
  acknowledged_by : Option String
  acknowledged_at : Option Nat
  resolved : Bool
  resolved_by : Option String
  resolved_at : Option Nat
  resolution_notes : Option String
deriving Repr, DecidableEq

/-- The mutable state of an `AlertManager`. -/
structure AlertState where
  active_alerts : List ((String × Nat) × Alert)
  alert_history : List (String × Nat)
deriving Repr, DecidableEq

/-- Replace the first element satisfying `p` by its image under `f`,
returning the new element and the rewritten list; `none` when no element
matches. -/
def updateFirst {α : Type} (p : α → Bool) (f : α → α) : List α → Option (α × List α)
  | [] => none
  | x :: xs =>
    if p x then some (f x, f x :: xs)
    else
      match updateFirst p f xs with
      | some r => some (r.1, x :: r.2)
      | none => none

/-- Python dict assignment `d[k] = v`: overwrite in place when the key
exists, else append. -/
def dictInsert (k : String × Nat) (v : Alert) :
    List ((String × Nat) × Alert) → List ((String × Nat) × Alert)
  | [] => [(k, v)]
  | e :: es => if e.1 = k then (k, v) :: es else e :: dictInsert k v es

/-- The predicate of the dedup scan in `create_alert`: same device and not
resolved. -/
def openMatch (d : String) (e : (String × Nat) × Alert) : Bool :=
  e.2.device_id == d && !e.2.resolved

/-- The in-place update `create_alert` applies to an existing open alert:
refresh `timestamp`, `anomaly_score` and `detector_votes`; un-acknowledge
when the recurrence comes more than 60 seconds after the previous
`timestamp`; regenerate the description; raise the severity only when the
new one is strictly more severe. The Python test
`(now - last_seen).total_seconds() > 60` is `last_seen + 60 < now` on ℕ
(both are false when time runs backwards). -/
def updateMatch (det : DetectionResult) (now : Nat) (a : Alert) : Alert :=
  let last_seen := a.timestamp
  let a := { a with timestamp := now, anomaly_score := det.anomaly_score,
                    detector_votes := det.detector_votes }
  let a := if last_seen + 60 < now && a.acknowledged then
             { a with acknowledged := false } else a
  let a := { a with description := generateDescription det }
  if det.severity < a.severity then { a with severity := det.severity } else a

/-- The fresh alert dict `create_alert` builds when no open alert matches. -/
def newAlert (det : DetectionResult) (now : Nat) : Alert :=
  { device_id := det.device_id
    device_type := det.device_type
    sector := det.sector
    created_at := now
    timestamp := now
    severity := det.severity
    anomaly_score := det.anomaly_score
    detector_votes := det.detector_votes
    description := generateDescription det
    status := "active"
    acknowledged := false
    acknowledged_by := none
    acknowledged_at := none
    resolved := false
    resolved_by := none
    resolved_at := none
    resolution_notes := none }

/-- Embedding of `AlertManager.create_alert` at wall-clock time `now`. -/
def create_alert (st : AlertState) (det : DetectionResult) (now : Nat) :
    Option Alert × AlertState :=
  if !det.is_anomaly then (none, st)
  else
    match updateFirst (openMatch det.device_id)
        (fun e => (e.1, updateMatch det now e.2)) st.active_alerts with
    | some r => (some r.1.2, { st with active_alerts := r.2 })
    | none =>
      (some (newAlert det now),
       { active_alerts :=
           dictInsert (det.device_id, now) (newAlert det now) st.active_alerts
         alert_history := st.alert_history ++ [(det.device_id, now)] })

/-- Embedding of `AlertManager.acknowledge_alert`. -/
def acknowledge_alert (st : AlertState) (id : String × Nat) (user : String)
    (now : Nat) : Bool × AlertState :=
  if st.active_alerts.any (fun e => e.1 == id) then
    (true,
     { st with active_alerts := st.active_alerts.map (fun e =>
        if e.1 = id then
          (e.1, { e.2 with acknowledged := true, acknowledged_by := some user,
                           acknowledged_at := some now })
        else e) })
  else (false, st)

/-- Embedding of `AlertManager.resolve_alert`. -/
def resolve_alert (st : AlertState) (id : String × Nat) (notes user : String)
    (now : Nat) : Bool × AlertState :=
  if st.active_alerts.any (fun e => e.1 == id) then
    (true,
     { st with active_alerts := st.active_alerts.map (fun e =>
        if e.1 = id then
          (e.1, { e.2 with resolved := true, resolved_by := some user,
                           resolved_at := some now,
                           resolution_notes := some notes,
                           status := "resolved" })
        else e) })
  else (false, st)

/-- Stable insertion into a descending-by-`timestamp` list: the new element
goes in front of the first strictly smaller key and behind equal keys. -/
def insertDesc (a : Alert) : List Alert → List Alert
  | [] => [a]
  | b :: bs => if b.timestamp ≤ a.timestamp then a :: b :: bs
               else b :: insertDesc a bs

/-- Stable sort by `timestamp` descending, the extensional behaviour of
`sorted(alerts, key=lambda x: x.timestamp, reverse=True)` (the source sorts
ISO timestamp strings, whose lexicographic order is the chronological
order). -/
def sortDesc : List Alert → List Alert
  | [] => []
  | a :: as => insertDesc a (sortDesc as)

/-- The unfiltered candidate list of `get_active_alerts`: the stored alerts
that are neither resolved nor acknowledged. The NaN/inf score sanitization
of the source is the identity on ℚ and is not modelled. -/
def activeFilterBase (st : AlertState) : List Alert :=
  (st.active_alerts.map (fun e => e.2)).filter
    (fun a => !a.resolved && !a.acknowledged)

/-- The optional severity filter of `get_active_alerts`. -/
def applySevFilter (sev : Option Nat) (l : List Alert) : List Alert :=
  match sev with
  | some s => l.filter (fun a => a.severity == s)
  | none => l

/-- The optional sector filter of `get_active_alerts`. -/
def applySecFilter (sec : Option String) (l : List Alert) : List Alert :=
  match sec with
  | some s => l.filter (fun a => a.sector == s)
  | none => l

/-- Embedding of `AlertManager.get_active_alerts`. -/
def get_active_alerts (st : AlertState) (sev : Option Nat)
    (sec : Option String) : List Alert :=
  sortDesc (applySecFilter sec (applySevFilter sev (activeFilterBase st)))

/-- The alert-count fields of `AlertManager.get_alert_statistics`; the
per-severity and per-sector breakdowns and the mean-time aggregates are
further derived data that this development does not need. -/
structure AlertStats where
  total_alerts : Nat
  active_alerts : Nat
  resolved_alerts : Nat
deriving Repr, DecidableEq

/-- Embedding of the count fields of `AlertManager.get_alert_statistics`:
`active_alerts` counts every stored unresolved alert, acknowledged or not. -/
def get_alert_statistics (st : AlertState) : AlertStats :=
  { total_alerts := st.alert_history.length
    active_alerts :=
      ((st.active_alerts.map (fun e => e.2)).filter (fun a => !a.resolved)).length
    resolved_alerts :=
      ((st.active_alerts.map (fun e => e.2)).filter (fun a => a.resolved)).length }

/-! ## Response policy and action lifecycle (`AutomatedResponseSystem`)

Response ids `f"resp_{utcnow().timestamp()}"` are modelled as naturals
passed in by the caller; `self.pending_approvals` is an insertion-ordered
association list and `self.response_history` a list of records (the Python
list aliases the mutable dicts, which the by-value model reflects by
rewriting the matching list entry). -/

/-- The `ResponseAction` enum. -/
inductive ActionType where
  | isolate_device
  | block_ip
  | rate_limit
  | rotate_credentials
  | service_restart
  | snapshot_system
  | quarantine
  | notify_admin
deriving Repr, DecidableEq

/-- The `ResponseStatus` enum. -/
inductive RespStatus where
  | pending
  | approved
  | executing
  | completed
  | failed
  | rolled_back
deriving Repr, DecidableEq

/-- A candidate action dict produced by `determine_response_actions`. -/
structure ActionSpec where
  action : ActionType
  target : String
  reason : String
  requires_approval : Bool
  priority : Option String
deriving Repr, DecidableEq

/-- The alert fields read by the response policy. `network_traffic_mbps` is
`alert.raw_data.get('network_traffic_mbps', 0)` with the default applied;
`raw_mentions_gps` is the test `'gps' in str(raw_data)`. -/
structure RAlert where
  alert_id : String
  severity : Nat
  sector : String
  device_type : String
  device_id : String
  network_traffic_mbps : ℚ
  raw_mentions_gps : Bool
deriving Repr

/-- The configuration flags read in `AutomatedResponseSystem.__init__`,
each defaulting to true. -/
structure RespConfig where
  auto_response_enabled : Bool
  require_approval_p0 : Bool
  require_approval_p1 : Bool
deriving Repr, DecidableEq

/-- The default configuration: every flag takes its `config.get(_, True)`
default. -/
def defaultRespConfig : RespConfig :=
  { auto_response_enabled := true, require_approval_p0 := true,
    require_approval_p1 := true }

/-- The life-critical healthcare device classes. -/
def lifeCritical : List String := ["infusion_pump", "ventilator", "patient_monitor"]

/-- Embedding of `AutomatedResponseSystem._healthcare_response_logic`. -/
def healthcare_response_logic (alert : RAlert) : List ActionSpec :=
  (if alert.device_type ∈ lifeCritical then
    [{ action := .notify_admin, target := "clinical_engineering",
       reason := "Life-critical device anomaly - manual intervention required",
       requires_approval := false, priority := some "urgent" }]
   else if alert.severity = 0 ∨ alert.severity = 1 then
    [{ action := .quarantine, target := alert.device_id,
       reason := "Isolate compromised healthcare device",
       requires_approval := true, priority := none }]
   else [])
  ++ (if alert.network_traffic_mbps > 200 then
    [{ action := .rate_limit, target := alert.device_id,
       reason := "Potential data exfiltration detected",
       requires_approval := false, priority := none }]
   else [])

/-- Embedding of `AutomatedResponseSystem._agriculture_response_logic`. -/
def agriculture_response_logic (alert : RAlert) : List ActionSpec :=
  (if alert.device_type = "irrigation_controller" ∧
      (alert.severity = 0 ∨ alert.severity = 1) then
    [{ action := .service_restart, target := alert.device_id,
       reason := "Reset irrigation controller to safe defaults",
       requires_approval := true, priority := none }]
   else [])
  ++ (if alert.device_type = "drone" ∧ alert.raw_mentions_gps then
    [{ action := .isolate_device, target := alert.device_id,
       reason := "GPS anomaly detected - ground drone",
       requires_approval := false, priority := none }]
   else [])
  ++ (if alert.device_type = "fertilizer_dispenser" ∧ alert.severity = 0 then
    [{ action := .service_restart, target := alert.device_id,
       reason := "Chemical system anomaly - safety shutdown",
       requires_approval := false, priority := none }]
   else [])

/-- The SCADA device classes of the urban logic. -/
def scadaSystems : List String := ["water_treatment_scada", "power_grid_monitor"]

/-- Embedding of `AutomatedResponseSystem._urban_response_logic`. -/
def urban_response_logic (alert : RAlert) : List ActionSpec :=
  (if alert.device_type ∈ scadaSystems then
    [{ action := .notify_admin, target := "scada_operators",
       reason := "Critical infrastructure anomaly - operator intervention required",
       requires_approval := false, priority := some "critical" }]
    ++ (if alert.severity = 0 then
      [{ action := .snapshot_system, target := alert.device_id,
         reason := "Forensic capture before response",
         requires_approval := false, priority := none }]
     else [])
   else [])
  ++ (if alert.device_type = "traffic_controller" ∧ alert.severity = 0 then
    [{ action := .service_restart, target := alert.device_id,
       reason := "Reset to failsafe timing",
       requires_approval := true, priority := none }]
   else [])
  ++ (if alert.device_type = "emergency_system" then
    [{ action := .notify_admin, target := "emergency_management",
       reason := "Emergency system compromised",
       requires_approval := false, priority := some "critical" }]
   else [])

/-- Embedding of `AutomatedResponseSystem.determine_response_actions`:
snapshot for P0/P1, then the sector-specific actions, then the
severity-wide fallback (isolate for P0, rate-limit for P1), in order. -/
def determine_response_actions (cfg : RespConfig) (alert : RAlert) :
    List ActionSpec :=
  (if alert.severity = 0 ∨ alert.severity = 1 then
    [{ action := .snapshot_system, target := alert.device_id,
       reason := "Pre-response system snapshot",
       requires_approval := false, priority := none }]
   else [])
  ++ (if alert.sector = "healthcare" then healthcare_response_logic alert
      else if alert.sector = "agriculture" then agriculture_response_logic alert
      else if alert.sector = "urban" then urban_response_logic alert
      else [])
  ++ (if alert.severity = 0 then
    [{ action := .isolate_device, target := alert.device_id,
       reason := "Critical threat detected",
       requires_approval := cfg.require_approval_p0, priority := none },
     { action := .notify_admin, target := "security_team",
       reason := "Critical alert requires immediate attention",
       requires_approval := false, priority := none }]
   else if alert.severity = 1 then
    [{ action := .rate_limit, target := alert.device_id,
       reason := "High-severity threat mitigation",
       requires_approval := cfg.require_approval_p1, priority := none }]
   else [])

/-- A response record dict. -/
structure RespRecord where
  response_id : Nat
  alert_id : String
  action : ActionType
  target : String
  reason : String
  status : RespStatus
  created_at : Nat
  executed_at : Option Nat
  completed_at : Option Nat
  success : Option Bool
  output : Option String
  rolled_back_at : Option Nat
deriving Repr, DecidableEq

/-- The mutable state of an `AutomatedResponseSystem`. -/
structure RespState where
  response_history : List RespRecord
  pending_approvals : List (Nat × RespRecord)
deriving Repr, DecidableEq

/-- The message returned by the simulated action implementation for each
action type; the snapshot message embeds the current time. -/
def actionOutput (now : Nat) (a : ActionType) (target : String) : String :=
  match a with
  | .isolate_device => "Device " ++ target ++ " isolated successfully. Network access revoked."
  | .block_ip => "IP " ++ target ++ " blocked at firewall level."
  | .rate_limit => "Rate limit applied to " ++ target ++ ": 100 req/min"
  | .rotate_credentials => "Credentials rotated for " ++ target ++ ". New credentials issued."
  | .service_restart => "Service on " ++ target ++ " restarted successfully."
  | .snapshot_system => "Snapshot snap_" ++ toString now ++ " created for " ++ target
  | .quarantine => "Device " ++ target ++ " moved to quarantine VLAN."
  | .notify_admin => "Notification sent to " ++ target

/-- Embedding of `AutomatedResponseSystem._execute_action`. Every value of
the `ResponseAction` enum is dispatched by the try block and every
simulated implementation returns normally, so the record always completes
with success; the final guarded append adds the record to the history when
it is not already there. -/
def execute_action (record : RespRecord) (st : RespState) (now : Nat) :
    RespRecord × RespState :=
  let record := { record with status := .executing, executed_at := some now }
  let record :=
    { record with
      status := .completed
      success := some true
      output := some (actionOutput now record.action record.target) }
  let record := { record with completed_at := some now }
  let hist := if record ∈ st.response_history then st.response_history
              else st.response_history ++ [record]
  (record, { st with response_history := hist })

/-- Embedding of `AutomatedResponseSystem.execute_response` at wall-clock
time `now`, with `rid` the fresh response id. -/
def execute_response (cfg : RespConfig) (action : ActionSpec)
    (alert_id : String) (st : RespState) (now rid : Nat) :
    RespRecord × RespState :=
  let record : RespRecord :=
    { response_id := rid
      alert_id := alert_id
      action := action.action
      target := action.target
      reason := action.reason
      status := .pending
      created_at := now
      executed_at := none
      completed_at := none
      success := none
      output := none
      rolled_back_at := none }
  if action.requires_approval then
    (record,
     { response_history := st.response_history ++ [record]
       pending_approvals := st.pending_approvals ++ [(rid, record)] })
  else if !cfg.auto_response_enabled then
    (record,
     { response_history := st.response_history ++ [record]
       pending_approvals := st.pending_approvals ++ [(rid, record)] })
  else execute_action record st now

/-- The lookup `next((r for r in history if r.response_id == id), None)`. -/
def findResp (hist : List RespRecord) (id : Nat) : Option RespRecord :=
  hist.find? (fun r => r.response_id == id)

/-- The two error classes `rollback_response` can raise. -/
inductive RespError where
  | notFound
  | invalidState
deriving Repr, DecidableEq

/-- Embedding of `AutomatedResponseSystem.rollback_response` on the history
list: find the first record with the id, require status completed, mark it
rolled back in place. -/
def rollback_response (hist : List RespRecord) (id now : Nat) :
    Except RespError (RespRecord × List RespRecord) :=
  match hist with
  | [] => .error .notFound
  | r :: rs =>
    if r.response_id = id then
      if r.status = .completed then
        let r2 := { r with status := .rolled_back, rolled_back_at := some now }
        .ok (r2, r2 :: rs)
      else .error .invalidState
    else
      match rollback_response rs id now with
      | .ok p => .ok (p.1, r :: p.2)
      | .error e => .error e

/-! ## Lemmas about the ensemble stack -/

lemma getD_replicate_zero (n i : Nat) : (List.replicate n (0:ℚ)).getD i 0 = 0 := by
  induction n generalizing i with
  | zero => simp [List.getD]
  | succ m ih =>
    cases i with
    | zero => simp [List.replicate]
    | succ j => simpa [List.replicate] using ih j

lemma collectRows_fst_length (n : Nat) (ds : List DetectorRun) :
    ((collectRows n ds).1).length = trainedCount ds := by
  induction ds with
  | nil => simp [collectRows, trainedCount]
  | cons d ds ih =>
    by_cases hd : d.is_trained
    · cases ho : d.outcome with
      | some r => simp [collectRows, hd, ho, trainedCount, List.filter] at ih ⊢; omega
      | none => simp [collectRows, hd, ho, trainedCount, List.filter] at ih ⊢; omega
    · simp [collectRows, hd, trainedCount, List.filter] at ih ⊢; exact ih

lemma collectRows_snd_length (n : Nat) (ds : List DetectorRun) :
    ((collectRows n ds).2).length = trainedCount ds := by
  induction ds with
  | nil => simp [collectRows, trainedCount]
  | cons d ds ih =>
    by_cases hd : d.is_trained
    · cases ho : d.outcome with
      | some r => simp [collectRows, hd, ho, trainedCount, List.filter] at ih ⊢; omega
      | none => simp [collectRows, hd, ho, trainedCount, List.filter] at ih ⊢; omega
    · simp [collectRows, hd, trainedCount, List.filter] at ih ⊢; exact ih

lemma collectRows_fst_sum (n : Nat) (ds : List DetectorRun) (i : Nat) :
    ((collectRows n ds).1.map (fun r => r.getD i 0)).sum = okLabelSum n ds i := by
  induction ds with
  | nil => simp [collectRows, okLabelSum]
  | cons d ds ih =>
    by_cases hd : d.is_trained
    · cases ho : d.outcome with
      | some r => simp [collectRows, hd, ho, okLabelSum] at ih ⊢; rw [ih]
      | none =>
        simp [collectRows, hd, ho, okLabelSum, getD_replicate_zero] at ih ⊢
        rw [ih]
    · simp [collectRows, hd, okLabelSum] at ih ⊢; rw [ih]

lemma collectRows_snd_sum (n : Nat) (ds : List DetectorRun) (i : Nat) :
    ((collectRows n ds).2.map (fun r => r.getD i 0)).sum = okScoreSum n ds i := by
  induction ds with
  | nil => simp [collectRows, okScoreSum]
  | cons d ds ih =>
    by_cases hd : d.is_trained
    · cases ho : d.outcome with
      | some r => simp [collectRows, hd, ho, okScoreSum] at ih ⊢; rw [ih]
      | none =>
        simp [collectRows, hd, ho, okScoreSum, getD_replicate_zero] at ih ⊢
        rw [ih]
    · simp [collectRows, hd, okScoreSum] at ih ⊢; rw [ih]

/-! ## C1 -/

/-- C1, counterexample. Three trained detectors, one returning label 1 and
two raising: the engine includes the two errored detectors as zero rows,
so the ensemble label differs from the vote over the remaining detectors
only — the errored detectors are not excluded from the vote. -/
def c1Runs : List DetectorRun :=
  [{ is_trained := true, outcome := some ([1], [1]) },
   { is_trained := true, outcome := none },
   { is_trained := true, outcome := none }]

/-- C1 fails on the code: at `c1Runs` the batch vote (label 1/3, below the
majority threshold) differs from the vote over the non-errored detectors
only (label 1), so an errored detector does contribute to the ensemble
label mean. -/
theorem c1_counterexample :
    detectLabel 1 c1Runs 0 = false ∧
    detectLabel 1 (excludeErrored c1Runs) 0 = true := by
  constructor
  · simp [detectLabel, c1Runs, collectRows, colMean, List.getD]
    norm_num
  · simp [detectLabel, excludeErrored, c1Runs, collectRows, colMean, List.getD]
    norm_num

/-- C1, amended: a detector whose `predict` raises is not excluded from the
batch vote; it enters the ensemble as zero labels and zero scores and still
counts in the denominator of both means. The ensemble label mean equals the
sum of the non-errored trained labels divided by the number of trained
detectors (errored ones included), and likewise for the score mean; only
untrained detectors are excluded. -/
theorem c1_errored_detectors_count_as_zero (n : Nat) (ds : List DetectorRun)
    (i : Nat) :
    detectLabel n ds i =
      decide (okLabelSum n ds i / (trainedCount ds : ℚ) ≥ 1/2) ∧
    detectEnsembleScore n ds i = okScoreSum n ds i / (trainedCount ds : ℚ) := by
  constructor
  · unfold detectLabel
    by_cases h : ((collectRows n ds).1).isEmpty
    · have h0 : trainedCount ds = 0 := by
        rw [← collectRows_fst_length n ds]
        simpa [List.isEmpty_iff_length_eq_zero] using h
      have hsum : okLabelSum n ds i = 0 := by
        rw [← collectRows_fst_sum n ds i]
        have : (collectRows n ds).1 = [] := by simpa [List.isEmpty_iff] using h
        simp [this]
      simp [h, h0, hsum]
    · simp only [h, if_neg, Bool.false_eq_true, if_false]
      rw [colMean, collectRows_fst_sum, collectRows_fst_length]
  · unfold detectEnsembleScore
    by_cases h : ((collectRows n ds).2).isEmpty
    · have h0 : trainedCount ds = 0 := by
        rw [← collectRows_snd_length n ds]
        simpa [List.isEmpty_iff_length_eq_zero] using h
      have hsum : okScoreSum n ds i = 0 := by
        rw [← collectRows_snd_sum n ds i]
        have : (collectRows n ds).2 = [] := by simpa [List.isEmpty_iff] using h
        simp [this]
      simp [h, h0, hsum]
    · simp only [h, if_neg, Bool.false_eq_true, if_false]
      rw [colMean, collectRows_snd_sum, collectRows_snd_length]

/-! ## C4 -/

lemma le_listMax {l : List ℚ} {x : ℚ} (hx : x ∈ l) : x ≤ listMax l := by
  induction l with
  | nil => cases hx
  | cons a t ih =>
    cases t with
    | nil => simp at hx; simp [listMax, hx]
    | cons b r =>
      rcases List.mem_cons.mp hx with h | h
      · simp [listMax, h, le_max_left]
      · exact le_trans (ih h) (by simp [listMax, le_max_right])

lemma listMin_le {l : List ℚ} {x : ℚ} (hx : x ∈ l) : listMin l ≤ x := by
  induction l with
  | nil => cases hx
  | cons a t ih =>
    cases t with
    | nil => simp at hx; simp [listMin, hx]
    | cons b r =>
      rcases List.mem_cons.mp hx with h | h
      · simp [listMin, h, min_le_left]
      · exact le_trans (by simp [listMin, min_le_right]) (ih h)

lemma getD_nonneg {r : List ℚ} (h : ∀ y ∈ r, 0 ≤ y) (i : Nat) :
    0 ≤ r.getD i 0 := by
  rw [List.getD_eq_getElem?_getD]
  cases hg : r[i]? with
  | none => simp
  | some y => simpa [hg] using h y (List.getElem?_mem hg)

/-- Every row stacked into `all_scores` is either a zero row (an errored
detector) or the score vector a detector returned. -/
lemma collectRows_snd_mem {n : Nat} {ds : List DetectorRun} {r : List ℚ}
    (hr : r ∈ (collectRows n ds).2) :
    r = List.replicate n 0 ∨ ∃ d ∈ ds, ∃ p, d.outcome = some (p, r) := by
  induction ds with
  | nil => simp [collectRows] at hr
  | cons d ds ih =>
    by_cases hd : d.is_trained
    · cases ho : d.outcome with
      | some q =>
        simp only [collectRows, hd, ho, if_true] at hr
        rcases List.mem_cons.mp hr with h | h
        · right; exact ⟨d, by simp, q.1, by rw [ho, h]⟩
        · rcases ih h with h2 | ⟨d2, hd2, p, hp⟩
          · left; exact h2
          · right; exact ⟨d2, by simp [hd2], p, hp⟩
      | none =>
        simp only [collectRows, hd, ho, if_true] at hr
        rcases List.mem_cons.mp hr with h | h
        · left; exact h
        · rcases ih h with h2 | ⟨d2, hd2, p, hp⟩
          · left; exact h2
          · right; exact ⟨d2, by simp [hd2], p, hp⟩
    · simp only [collectRows, hd, if_false, Bool.false_eq_true] at hr
      rcases ih hr with h2 | ⟨d2, hd2, p, hp⟩
      · left; exact h2
      · right; exact ⟨d2, by simp [hd2], p, hp⟩

/-- With nonnegative per-detector scores, every pre-normalization ensemble
score is nonnegative. -/
lemma ensembleScore_nonneg {n : Nat} {ds : List DetectorRun}
    (h : ∀ d ∈ ds, ∀ p s, d.outcome = some (p, s) → ∀ x ∈ s, 0 ≤ x)
    {x : ℚ} (hx : x ∈ ensembleScoresVec n ds) : 0 ≤ x := by
  rcases List.mem_map.mp hx with ⟨i, _, rfl⟩
  unfold detectEnsembleScore
  by_cases he : ((collectRows n ds).2).isEmpty
  · simp [he]
  · simp only [he, Bool.false_eq_true, if_false]
    unfold colMean
    apply div_nonneg
    · apply List.sum_nonneg
      intro q hq
      rcases List.mem_map.mp hq with ⟨r, hr, rfl⟩
      apply getD_nonneg
      rcases collectRows_snd_mem hr with h2 | ⟨d, hd, p, hp⟩
      · intro y hy
        rw [h2] at hy
        rw [List.eq_of_mem_replicate hy]
      · exact h d hd p r hp
    · positivity

/-- Normalization keeps nonnegative score vectors inside the unit
interval. -/
lemma normalizeScores_mem_unit {scores : List ℚ}
    (h : ∀ x ∈ scores, 0 ≤ x) {y : ℚ} (hy : y ∈ normalizeScores scores) :
    0 ≤ y ∧ y ≤ 1 := by
  unfold normalizeScores at hy
  by_cases hr : listMax scores - listMin scores > 0
  · simp only [hr, if_true] at hy
    rcases List.mem_map.mp hy with ⟨s, hs, rfl⟩
    constructor
    · apply div_nonneg _ (le_of_lt hr)
      have := listMin_le hs
      linarith
    · rw [div_le_one hr]
      have := le_listMax hs
      linarith
  · simp only [hr, if_false] at hy
    by_cases hm : listMax scores ≤ 1
    · simp only [hm, if_true] at hy
      exact ⟨h y hy, le_trans (le_listMax hy) hm⟩
    · simp only [hm, if_false] at hy
      rw [List.eq_of_mem_replicate hy]
      norm_num

/-- C4, amended: provided every score an included detector returns is
nonnegative, each normalized ensemble score lies in [0,1] under the stated
rule. Without that proviso the claim fails: when all ensemble scores are
equal and negative the pass-through branch returns them unchanged, below 0
(see the counterexample). -/
theorem c4_normalized_scores_in_unit_interval (n : Nat)
    (ds : List DetectorRun)
    (h : ∀ d ∈ ds, ∀ p s, d.outcome = some (p, s) → ∀ x ∈ s, 0 ≤ x) :
    ∀ y ∈ normalizedScoresVec n ds, 0 ≤ y ∧ y ≤ 1 := by
  intro y hy
  exact normalizeScores_mem_unit (fun x hx => ensembleScore_nonneg h hx) hy

/-- Witness for the amended C4 at a concrete two-sample batch. -/
theorem c4_witness :
    (∀ d ∈ [({ is_trained := true, outcome := some ([1, 0], [2, 5]) } : DetectorRun)],
      ∀ p s, d.outcome = some (p, s) → ∀ x ∈ s, 0 ≤ x) ∧
    (∀ y ∈ normalizedScoresVec 2
        [({ is_trained := true, outcome := some ([1, 0], [2, 5]) } : DetectorRun)],
      0 ≤ y ∧ y ≤ 1) := by
  constructor
  · intro d hd p s hps x hx
    simp at hd
    rw [hd] at hps
    simp at hps
    rcases hps with ⟨h1, h2⟩
    rw [← h2] at hx
    rcases List.mem_cons.mp hx with h | h
    · rw [h]; norm_num
    · simp at h; rw [h]; norm_num
  · exact c4_normalized_scores_in_unit_interval 2 _
      (by
        intro d hd p s hps x hx
        simp at hd
        rw [hd] at hps
        simp at hps
        rcases hps with ⟨h1, h2⟩
        rw [← h2] at hx
        rcases List.mem_cons.mp hx with h | h
        · rw [h]; norm_num
        · simp at h; rw [h]; norm_num)

/-- C4, counterexample input: one trained detector returning the single
negative score −1. -/
def c4Runs : List DetectorRun :=
  [{ is_trained := true, outcome := some ([0], [-1]) }]

/-- C4 fails on the code as stated: at `c4Runs` the one-sample batch has
all ensemble scores equal to −1, so `max − min = 0` and `max ≤ 1.0` sends
the scores through unchanged, and the normalized score −1 is outside
[0,1]. -/
theorem c4_counterexample :
    ¬ (∀ y ∈ normalizedScoresVec 1 c4Runs, 0 ≤ y ∧ y ≤ 1) := by
  intro h
  have hv : normalizedScoresVec 1 c4Runs = [-1] := by
    simp [normalizedScoresVec, ensembleScoresVec, c4Runs, collectRows,
      detectEnsembleScore, colMean, List.getD, normalizeScores, listMax, listMin]
    rw [List.range_succ]
    simp
  have := h (-1) (by rw [hv]; simp)
  linarith [this.1]

/-! ## Lemmas about the alert store -/

lemma updateFirst_none {α : Type} {p : α → Bool} {f : α → α} {l : List α}
    (h : ∀ x ∈ l, p x = false) : updateFirst p f l = none := by
  induction l with
  | nil => rfl
  | cons x xs ih =>
    have hx : p x = false := h x (by simp)
    simp only [updateFirst, hx, Bool.false_eq_true, if_false]
    rw [ih (fun y hy => h y (by simp [hy]))]

lemma updateFirst_append_single {α : Type} {p : α → Bool} {f : α → α}
    {l : List α} {x : α} (h : ∀ y ∈ l, p y = false) (hx : p x = true) :
    updateFirst p f (l ++ [x]) = some (f x, l ++ [f x]) := by
  induction l with
  | nil => simp [updateFirst, hx]
  | cons a t ih =>
    have ha : p a = false := h a (by simp)
    simp only [List.cons_append, updateFirst, ha, Bool.false_eq_true, if_false]
    rw [List.append_eq, ih (fun y hy => h y (by simp [hy]))]

lemma updateFirst_middle {α : Type} {p : α → Bool} {f : α → α}
    {pre post : List α} {x : α} (h : ∀ y ∈ pre, p y = false) (hx : p x = true) :
    updateFirst p f (pre ++ x :: post) = some (f x, pre ++ f x :: post) := by
  induction pre with
  | nil => simp [updateFirst, hx]
  | cons a t ih =>
    have ha : p a = false := h a (by simp)
    simp only [List.cons_append, updateFirst, ha, Bool.false_eq_true, if_false]
    rw [List.append_eq, ih (fun y hy => h y (by simp [hy]))]

lemma dictInsert_append {k : String × Nat} {v : Alert}
    {l : List ((String × Nat) × Alert)} (h : ∀ e ∈ l, e.1 ≠ k) :
    dictInsert k v l = l ++ [(k, v)] := by
  induction l with
  | nil => rfl
  | cons e es ih =>
    have he : e.1 ≠ k := h e (by simp)
    simp only [dictInsert, he, if_false, List.cons_append]
    rw [ih (fun x hx => h x (by simp [hx]))]

lemma insertDesc_perm (a : Alert) (l : List Alert) :
    (insertDesc a l).Perm (a :: l) := by
  induction l with
  | nil => simp [insertDesc]
  | cons b bs ih =>
    by_cases h : b.timestamp ≤ a.timestamp
    · simp [insertDesc, h]
    · simp only [insertDesc, h, if_false]
      exact (List.Perm.cons b ih).trans (List.Perm.swap a b bs)

lemma sortDesc_perm (l : List Alert) : (sortDesc l).Perm l := by
  induction l with
  | nil => simp [sortDesc]
  | cons a as ih =>
    exact (insertDesc_perm a (sortDesc as)).trans (List.Perm.cons a ih)

lemma mem_sortDesc {l : List Alert} {a : Alert} :
    a ∈ sortDesc l ↔ a ∈ l :=
  (sortDesc_perm l).mem_iff

lemma length_sortDesc (l : List Alert) : (sortDesc l).length = l.length :=
  (sortDesc_perm l).length_eq

lemma insertDesc_pairwise {a : Alert} {l : List Alert}
    (h : l.Pairwise (fun x y => y.timestamp ≤ x.timestamp)) :
    (insertDesc a l).Pairwise (fun x y => y.timestamp ≤ x.timestamp) := by
  induction l with
  | nil => simp [insertDesc]
  | cons b bs ih =>
    rcases List.pairwise_cons.mp h with ⟨hb, hbs⟩
    by_cases hle : b.timestamp ≤ a.timestamp
    · simp only [insertDesc, hle, if_true]
      refine List.pairwise_cons.mpr ⟨?_, h⟩
      intro y hy
      rcases List.mem_cons.mp hy with rfl | hy2
      · exact hle
      · exact le_trans (hb y hy2) hle
    · simp only [insertDesc, hle, if_false]
      refine List.pairwise_cons.mpr ⟨?_, ih hbs⟩
      intro y hy
      have := (insertDesc_perm a bs).mem_iff.mp hy
      rcases List.mem_cons.mp this with rfl | hy2
      · omega
      · exact hb y hy2

lemma sortDesc_pairwise (l : List Alert) :
    (sortDesc l).Pairwise (fun x y => y.timestamp ≤ x.timestamp) := by
  induction l with
  | nil => simp [sortDesc]
  | cons a as ih => exact insertDesc_pairwise ih

lemma filter_length_mono {α : Type} (p q : α → Bool)
    (himp : ∀ a, q a = true → p a = true) (l : List α) :
    (l.filter q).length ≤ (l.filter p).length := by
  induction l with
  | nil => simp
  | cons a as ih =>
    by_cases hq : q a = true
    · have hp : p a = true := himp a hq
      simp [List.filter, hq, hp]
      omega
    · simp only [Bool.not_eq_true] at hq
      by_cases hp : p a = true
      · simp [List.filter, hq, hp]; omega
      · simp only [Bool.not_eq_true] at hp
        simp [List.filter, hq, hp]; omega

lemma filter_length_strict_mono {α : Type} {p q : α → Bool}
    (himp : ∀ a, q a = true → p a = true) {l : List α} {x : α}
    (hx : x ∈ l) (hp : p x = true) (hq : q x = false) :
    (l.filter q).length < (l.filter p).length := by
  induction l with
  | nil => cases hx
  | cons a as ih =>
    rcases List.mem_cons.mp hx with rfl | hx2
    · simp [List.filter, hp, hq]
      calc (as.filter q).length ≤ (as.filter p).length :=
            filter_length_mono p q himp as
        _ < (as.filter p).length + 1 := Nat.lt_succ_self _
    · by_cases hqa : q a = true
      · have hpa : p a = true := himp a hqa
        simp [List.filter, hqa, hpa]
        exact ih hx2
      · simp only [Bool.not_eq_true] at hqa
        by_cases hpa : p a = true
        · simp [List.filter, hqa, hpa]
          exact Nat.lt_succ_of_lt (ih hx2)
        · simp only [Bool.not_eq_true] at hpa
          simp [List.filter, hqa, hpa]
          exact ih hx2

/-! ## C8 -/

/-- C8, amended: `get_active_alerts` returns exactly the stored alerts that
are not resolved and not acknowledged (through the optional severity and
sector filters), sorted by the `timestamp` field descending. Since
`timestamp` is refreshed on every update, the order is by last-update time,
not by creation time as the claim stated (see the counterexample). -/
theorem c8_active_listing (st : AlertState) (sev : Option Nat)
    (sec : Option String) :
    (get_active_alerts st sev sec).Pairwise
      (fun x y => y.timestamp ≤ x.timestamp) ∧
    ∀ a, a ∈ get_active_alerts st sev sec ↔
      (a ∈ st.active_alerts.map (fun e => e.2) ∧ a.resolved = false ∧
       a.acknowledged = false ∧ (∀ s, sev = some s → a.severity = s) ∧
       (∀ s, sec = some s → a.sector = s)) := by
  constructor
  · exact sortDesc_pairwise _
  · intro a
    rw [get_active_alerts, mem_sortDesc]
    cases sev with
    | none =>
      cases sec with
      | none =>
        simp [applySevFilter, applySecFilter, activeFilterBase, List.mem_filter]
        try tauto
      | some s2 =>
        simp [applySevFilter, applySecFilter, activeFilterBase, List.mem_filter]
        try tauto
    | some s1 =>
      cases sec with
      | none =>
        simp [applySevFilter, applySecFilter, activeFilterBase, List.mem_filter]
        try tauto
      | some s2 =>
        simp [applySevFilter, applySecFilter, activeFilterBase, List.mem_filter]
        try tauto

/-- Anomalous verdict on device A, used to build the C8 counterexample. -/
def c8DetA : DetectionResult :=
  { device_id := "A", device_type := "t", sector := "s", is_anomaly := true,
    anomaly_score := 0, detector_votes := [], severity := 4 }

/-- Anomalous verdict on device B, used to build the C8 counterexample. -/
def c8DetB : DetectionResult :=
  { device_id := "B", device_type := "t", sector := "s", is_anomaly := true,
    anomaly_score := 0, detector_votes := [], severity := 4 }

/-- State reached by: alert for A created at time 0, alert for B created at
time 5, then the A alert updated by a recurrence at time 10. -/
def c8State : AlertState :=
  (create_alert (create_alert (create_alert ⟨[], []⟩ c8DetA 0).2
    c8DetB 5).2 c8DetA 10).2

/-- C8 fails on the code as stated: in `c8State` the active listing orders
the A alert (created at 0 but updated at 10) before the B alert (created at
5), so the listing is not sorted by creation time descending. -/
theorem c8_counterexample :
    ¬ (get_active_alerts c8State none none).Pairwise
        (fun x y => y.created_at ≤ x.created_at) := by
  decide

/-! ## C10 -/

/-- C10: the statistics count every unresolved alert as active, including
acknowledged ones, so a state with an acknowledged unresolved alert reports
a strictly larger active count than the length of the unfiltered active
listing. -/
theorem c10_statistics_count_exceeds_listing (st : AlertState)
    (h : ∃ e ∈ st.active_alerts, e.2.resolved = false ∧ e.2.acknowledged = true) :
    (get_active_alerts st none none).length <
      (get_alert_statistics st).active_alerts := by
  rcases h with ⟨e, he, hres, hack⟩
  have hlen : (get_active_alerts st none none).length =
      (activeFilterBase st).length := by
    simp [get_active_alerts, applySevFilter, applySecFilter, length_sortDesc]
  rw [hlen]
  unfold activeFilterBase get_alert_statistics
  dsimp only
  exact @filter_length_strict_mono Alert
    (fun a => !a.resolved)
    (fun a => !a.resolved && !a.acknowledged)
    (fun a ha => (Bool.and_eq_true_iff.mp ha).1)
    _ e.2 (List.mem_map_of_mem (fun e => e.2) he)
    (by simp [hres]) (by simp [hres, hack])

/-- An acknowledged, unresolved alert, for the C10 witness state. -/
def c10Alert : Alert :=
  { device_id := "d", device_type := "t", sector := "s", created_at := 0,
    timestamp := 0, severity := 4, anomaly_score := 0, detector_votes := [],
    description := { device_id := "d", device_type := "t", sector := "s",
                     score := 0, detected_by := [] },
    status := "active", acknowledged := true, acknowledged_by := some "u",
    acknowledged_at := some 1, resolved := false, resolved_by := none,
    resolved_at := none, resolution_notes := none }

/-- Witness state for C10: one acknowledged unresolved alert. -/
def c10State : AlertState := ⟨[(("d", 0), c10Alert)], [("d", 0)]⟩

/-- Witness for C10 at the concrete state `c10State`. -/
theorem c10_witness :
    (∃ e ∈ c10State.active_alerts,
      e.2.resolved = false ∧ e.2.acknowledged = true) ∧
    (get_active_alerts c10State none none).length <
      (get_alert_statistics c10State).active_alerts :=
  ⟨⟨(("d", 0), c10Alert), by simp [c10State], rfl, rfl⟩,
   c10_statistics_count_exceeds_listing c10State
     ⟨(("d", 0), c10Alert), by simp [c10State], rfl, rfl⟩⟩

/-! ## Lemmas about `create_alert` -/

lemma updateMatch_device_id (det : DetectionResult) (now : Nat) (a : Alert) :
    (updateMatch det now a).device_id = a.device_id := by
  simp only [updateMatch]
  split_ifs <;> rfl

lemma updateMatch_votes (det : DetectionResult) (now : Nat) (a : Alert) :
    (updateMatch det now a).detector_votes = det.detector_votes := by
  simp only [updateMatch]
  split_ifs <;> rfl

lemma updateMatch_resolved (det : DetectionResult) (now : Nat) (a : Alert) :
    (updateMatch det now a).resolved = a.resolved := by
  simp only [updateMatch]
  split_ifs <;> rfl

lemma updateMatch_acknowledged_by (det : DetectionResult) (now : Nat) (a : Alert) :
    (updateMatch det now a).acknowledged_by = a.acknowledged_by := by
  simp only [updateMatch]
  split_ifs <;> rfl

lemma updateMatch_acknowledged_at (det : DetectionResult) (now : Nat) (a : Alert) :
    (updateMatch det now a).acknowledged_at = a.acknowledged_at := by
  simp only [updateMatch]
  split_ifs <;> rfl

lemma updateMatch_severity (det : DetectionResult) (now : Nat) (a : Alert) :
    (updateMatch det now a).severity = min det.severity a.severity := by
  simp only [updateMatch]
  split_ifs <;> simp_all <;> omega

lemma updateMatch_ack_of_unack {a : Alert} (det : DetectionResult) (now : Nat)
    (h : a.acknowledged = false) : (updateMatch det now a).acknowledged = false := by
  simp only [updateMatch]
  split_ifs <;> simp [h]

lemma updateMatch_ack_of_recurrence {a : Alert} (det : DetectionResult)
    {now : Nat} (hack : a.acknowledged = true)
    (htime : a.timestamp + 60 < now) :
    (updateMatch det now a).acknowledged = false := by
  simp only [updateMatch, hack, htime]
  split_ifs <;> simp_all

/-- When no stored alert is open for the device, `create_alert` on an
anomalous verdict appends a fresh alert under the fresh id. -/
lemma create_alert_new {st : AlertState} {det : DetectionResult} {now : Nat}
    (ha : det.is_anomaly = true)
    (hopen : ∀ e ∈ st.active_alerts, openMatch det.device_id e = false)
    (hfresh : ∀ e ∈ st.active_alerts, e.1 ≠ (det.device_id, now)) :
    create_alert st det now =
      (some (newAlert det now),
       { active_alerts :=
           st.active_alerts ++ [((det.device_id, now), newAlert det now)]
         alert_history := st.alert_history ++ [(det.device_id, now)] }) := by
  unfold create_alert
  rw [ha]
  simp only [Bool.not_true, Bool.false_eq_true, if_false]
  rw [updateFirst_none hopen, dictInsert_append hfresh]

/-- When the first open alert for the device sits between `pre` and `post`,
`create_alert` on an anomalous verdict rewrites it in place. -/
lemma create_alert_update {st : AlertState} {det : DetectionResult}
    {now : Nat} {pre post : List ((String × Nat) × Alert)}
    {k : String × Nat} {a : Alert}
    (ha : det.is_anomaly = true)
    (hsplit : st.active_alerts = pre ++ (k, a) :: post)
    (hpre : ∀ e ∈ pre, openMatch det.device_id e = false)
    (hmatch : openMatch det.device_id (k, a) = true) :
    create_alert st det now =
      (some (updateMatch det now a),
       { st with active_alerts := pre ++ (k, updateMatch det now a) :: post }) := by
  unfold create_alert
  rw [ha]
  simp only [Bool.not_true, Bool.false_eq_true, if_false]
  rw [hsplit, updateFirst_middle hpre hmatch]

/-! ## C3 -/

/-- C3: starting from a store with no alert for the device, two anomalous
verdicts for the same device within the quiet period (and with no
intervening resolve) leave exactly one alert for that device; its severity
is the more severe (smaller tier number) of the two verdicts and its
detector votes are the second verdicts votes. -/
theorem c3_dedup_two_verdicts (st : AlertState) (det1 det2 : DetectionResult)
    (t1 t2 : Nat)
    (hclean : ∀ e ∈ st.active_alerts,
      e.1.1 ≠ det1.device_id ∧ e.2.device_id ≠ det1.device_id)
    (h1 : det1.is_anomaly = true) (h2 : det2.is_anomaly = true)
    (hsame : det2.device_id = det1.device_id)
    (hquiet : t2 ≤ t1 + 60) :
    ∃ a : Alert,
      ((create_alert (create_alert st det1 t1).2 det2 t2).2.active_alerts.filter
        (fun e => e.2.device_id == det1.device_id)) =
          [((det1.device_id, t1), a)] ∧
      a.severity = min det1.severity det2.severity ∧
      a.detector_votes = det2.detector_votes ∧
      a.resolved = false := by
  have hopen1 : ∀ e ∈ st.active_alerts, openMatch det1.device_id e = false := by
    intro e he
    have hne := (hclean e he).2
    simp [openMatch, hne]
  have hfresh1 : ∀ e ∈ st.active_alerts, e.1 ≠ (det1.device_id, t1) := by
    intro e he hk
    exact (hclean e he).1 (by rw [hk])
  have hstep1 := create_alert_new h1 hopen1 hfresh1
  rw [hstep1]
  have hpre2 : ∀ e ∈ st.active_alerts, openMatch det2.device_id e = false := by
    intro e he
    have hne := (hclean e he).2
    simp [openMatch, hsame, hne]
  have hmatch2 : openMatch det2.device_id
      ((det1.device_id, t1), newAlert det1 t1) = true := by
    simp [openMatch, newAlert, hsame]
  have hstep2 := @create_alert_update
    { active_alerts :=
        st.active_alerts ++ [((det1.device_id, t1), newAlert det1 t1)]
      alert_history := st.alert_history ++ [(det1.device_id, t1)] }
    det2 t2 st.active_alerts [] (det1.device_id, t1) (newAlert det1 t1)
    h2 rfl hpre2 hmatch2
  rw [hstep2]
  refine ⟨updateMatch det2 t2 (newAlert det1 t1), ?_, ?_, ?_, ?_⟩
  · rw [List.filter_append]
    have hnil : (st.active_alerts.filter
        (fun e => e.2.device_id == det1.device_id)) = [] := by
      apply List.filter_eq_nil_iff.mpr
      intro e he
      have hne := (hclean e he).2
      simp [hne]
    rw [hnil]
    have hd : (updateMatch det2 t2 (newAlert det1 t1)).device_id =
        det1.device_id := by
      rw [updateMatch_device_id]; rfl
    simp [hd]
  · rw [updateMatch_severity]
    have : (newAlert det1 t1).severity = det1.severity := rfl
    rw [this]
    omega
  · rw [updateMatch_votes]
  · rw [updateMatch_resolved]; rfl

/-- First verdict for the C3 witness. -/
def c3Det1 : DetectionResult :=
  { device_id := "d", device_type := "t", sector := "s", is_anomaly := true,
    anomaly_score := 1, detector_votes := [("zscore", 1)], severity := 3 }

/-- Second verdict for the C3 witness, more severe, different votes. -/
def c3Det2 : DetectionResult :=
  { device_id := "d", device_type := "t", sector := "s", is_anomaly := true,
    anomaly_score := 1, detector_votes := [("moving_avg", 0)], severity := 2 }

/-- Witness for C3: the empty store, then verdicts at times 0 and 30. -/
theorem c3_witness :
    ((∀ e ∈ (⟨[], []⟩ : AlertState).active_alerts,
        e.1.1 ≠ c3Det1.device_id ∧ e.2.device_id ≠ c3Det1.device_id) ∧
      c3Det1.is_anomaly = true ∧ c3Det2.is_anomaly = true ∧
      c3Det2.device_id = c3Det1.device_id ∧ 30 ≤ 0 + 60) ∧
    ∃ a : Alert,
      ((create_alert (create_alert ⟨[], []⟩ c3Det1 0).2 c3Det2 30).2.active_alerts.filter
        (fun e => e.2.device_id == c3Det1.device_id)) =
          [((c3Det1.device_id, 0), a)] ∧
      a.severity = min c3Det1.severity c3Det2.severity ∧
      a.detector_votes = c3Det2.detector_votes ∧
      a.resolved = false :=
  ⟨⟨by simp, rfl, rfl, rfl, by omega⟩,
   c3_dedup_two_verdicts ⟨[], []⟩ c3Det1 c3Det2 0 30
     (by simp) rfl rfl rfl (by omega)⟩

/-! ## C5 -/

/-- C5: resolved alerts are never reopened. In any store where every alert
for the device is resolved, an anomalous verdict leaves the store unchanged
except for one appended fresh alert: the new alert has a fresh id and
status active, and every previously stored entry (in particular the
resolved one) is still present untouched. -/
theorem c5_resolved_is_terminal (st : AlertState) (det : DetectionResult)
    (now : Nat) (k : String × Nat) (a : Alert)
    (hmem : (k, a) ∈ st.active_alerts) (hres : a.resolved = true)
    (hall : ∀ e ∈ st.active_alerts,
      e.2.device_id = det.device_id → e.2.resolved = true)
    (hfresh : ∀ e ∈ st.active_alerts, e.1 ≠ (det.device_id, now))
    (ha : det.is_anomaly = true) :
    create_alert st det now =
      (some (newAlert det now),
       { active_alerts :=
           st.active_alerts ++ [((det.device_id, now), newAlert det now)]
         alert_history := st.alert_history ++ [(det.device_id, now)] }) ∧
    (newAlert det now).status = "active" ∧
    (newAlert det now).resolved = false ∧
    (newAlert det now).acknowledged = false ∧
    (k, a) ∈ (create_alert st det now).2.active_alerts ∧
    (det.device_id, now) ≠ k := by
  have hopen : ∀ e ∈ st.active_alerts, openMatch det.device_id e = false := by
    intro e he
    by_cases hd : e.2.device_id = det.device_id
    · have := hall e he hd
      simp [openMatch, this]
    · simp [openMatch, hd]
  have hstep := create_alert_new ha hopen hfresh
  refine ⟨hstep, rfl, rfl, rfl, ?_, ?_⟩
  · rw [hstep]
    exact List.mem_append_left _ hmem
  · intro hk
    exact hfresh (k, a) hmem (by rw [hk])

/-- A resolved alert for device d, used in the C5 witness. -/
def c5Alert : Alert :=
  { device_id := "d", device_type := "t", sector := "s", created_at := 0,
    timestamp := 0, severity := 2, anomaly_score := 1, detector_votes := [],
    description := { device_id := "d", device_type := "t", sector := "s",
                     score := 1, detected_by := [] },
    status := "resolved", acknowledged := false, acknowledged_by := none,
    acknowledged_at := none, resolved := true, resolved_by := some "u",
    resolved_at := some 40, resolution_notes := some "done" }

/-- Witness state for C5: one resolved alert for device d. -/
def c5State : AlertState := ⟨[(("d", 0), c5Alert)], [("d", 0)]⟩

/-- Anomalous verdict on device d after the resolution, for the C5
witness. -/
def c5Det : DetectionResult :=
  { device_id := "d", device_type := "t", sector := "s", is_anomaly := true,
    anomaly_score := 1, detector_votes := [], severity := 1 }

/-- Witness for C5 at the concrete post-resolution state `c5State`. -/
theorem c5_witness :
    ((("d", 0), c5Alert) ∈ c5State.active_alerts ∧
      c5Alert.resolved = true ∧
      (∀ e ∈ c5State.active_alerts,
        e.2.device_id = c5Det.device_id → e.2.resolved = true) ∧
      (∀ e ∈ c5State.active_alerts, e.1 ≠ (c5Det.device_id, 100)) ∧
      c5Det.is_anomaly = true) ∧
    ((newAlert c5Det 100).status = "active" ∧
      (("d", 0), c5Alert) ∈ (create_alert c5State c5Det 100).2.active_alerts ∧
      (c5Det.device_id, 100) ≠ ("d", 0)) :=
  ⟨⟨by simp [c5State], rfl, by decide, by decide, rfl⟩,
   ⟨(c5_resolved_is_terminal c5State c5Det 100 ("d", 0) c5Alert
       (by simp [c5State]) rfl (by decide) (by decide) rfl).2.1,
    (c5_resolved_is_terminal c5State c5Det 100 ("d", 0) c5Alert
       (by simp [c5State]) rfl (by decide) (by decide) rfl).2.2.2.2.1,
    (c5_resolved_is_terminal c5State c5Det 100 ("d", 0) c5Alert
       (by simp [c5State]) rfl (by decide) (by decide) rfl).2.2.2.2.2⟩⟩

/-! ## C6 -/

/-- C6, amended: an anomalous verdict for the device of an acknowledged,
unresolved alert arriving more than 60 seconds after the last update flips
`acknowledged` back to false and the alert reappears in the active listing;
the `acknowledged_by` and `acknowledged_at` fields are left in place, not
cleared (the claim said they are cleared — see the counterexample). -/
theorem c6_recurrence_reactivates (st : AlertState) (det : DetectionResult)
    (now : Nat) (pre post : List ((String × Nat) × Alert))
    (k : String × Nat) (a : Alert)
    (hsplit : st.active_alerts = pre ++ (k, a) :: post)
    (hpre : ∀ e ∈ pre, openMatch det.device_id e = false)
    (hdev : a.device_id = det.device_id) (hres : a.resolved = false)
    (hack : a.acknowledged = true) (ha : det.is_anomaly = true)
    (htime : a.timestamp + 60 < now) :
    ∃ a2 : Alert,
      create_alert st det now =
        (some a2, { st with active_alerts := pre ++ (k, a2) :: post }) ∧
      a2.acknowledged = false ∧
      a2.acknowledged_by = a.acknowledged_by ∧
      a2.acknowledged_at = a.acknowledged_at ∧
      a2 ∈ get_active_alerts
        { st with active_alerts := pre ++ (k, a2) :: post } none none := by
  have hmatch : openMatch det.device_id (k, a) = true := by
    simp [openMatch, hdev, hres]
  refine ⟨updateMatch det now a,
    create_alert_update ha hsplit hpre hmatch,
    updateMatch_ack_of_recurrence det hack htime,
    updateMatch_acknowledged_by det now a,
    updateMatch_acknowledged_at det now a, ?_⟩
  rw [get_active_alerts, mem_sortDesc]
  simp only [applySevFilter, applySecFilter, activeFilterBase]
  rw [List.mem_filter]
  constructor
  · exact List.mem_map.mpr ⟨(k, updateMatch det now a), by simp, rfl⟩
  · rw [updateMatch_resolved, hres,
      updateMatch_ack_of_recurrence det hack htime]
    rfl

/-- An acknowledged, unresolved alert last updated at time 10, for C6. -/
def c6Alert : Alert :=
  { device_id := "d", device_type := "t", sector := "s", created_at := 0,
    timestamp := 10, severity := 2, anomaly_score := 1, detector_votes := [],
    description := { device_id := "d", device_type := "t", sector := "s",
                     score := 1, detected_by := [] },
    status := "active", acknowledged := true, acknowledged_by := some "u",
    acknowledged_at := some 20, resolved := false, resolved_by := none,
    resolved_at := none, resolution_notes := none }

/-- State holding the acknowledged alert `c6Alert`. -/
def c6State : AlertState := ⟨[(("d", 0), c6Alert)], [("d", 0)]⟩

/-- Anomalous recurrence on device d, for C6. -/
def c6Det : DetectionResult :=
  { device_id := "d", device_type := "t", sector := "s", is_anomaly := true,
    anomaly_score := 1, detector_votes := [], severity := 2 }

/-- C6 fails on the code as stated: at time 100 (more than 60s after the
last update at 10) the recurrence flips `acknowledged` to false, but the
acknowledgement fields are not cleared: `acknowledged_by` stays "u" and
`acknowledged_at` stays 20. -/
theorem c6_counterexample :
    ((create_alert c6State c6Det 100).1.map (fun a => a.acknowledged) =
      some false) ∧
    ¬ ((create_alert c6State c6Det 100).1.map (fun a => a.acknowledged_by) =
        some none ∧
       (create_alert c6State c6Det 100).1.map (fun a => a.acknowledged_at) =
        some none) := by
  decide

/-- Witness for the amended C6 at the concrete state `c6State`. -/
theorem c6_witness :
    (c6State.active_alerts = [] ++ (("d", 0), c6Alert) :: [] ∧
      (∀ e ∈ ([] : List ((String × Nat) × Alert)),
        openMatch c6Det.device_id e = false) ∧
      c6Alert.device_id = c6Det.device_id ∧ c6Alert.resolved = false ∧
      c6Alert.acknowledged = true ∧ c6Det.is_anomaly = true ∧
      c6Alert.timestamp + 60 < 100) ∧
    ∃ a2 : Alert,
      create_alert c6State c6Det 100 =
        (some a2,
         { c6State with active_alerts := [] ++ (("d", 0), a2) :: [] }) ∧
      a2.acknowledged = false ∧
      a2.acknowledged_by = c6Alert.acknowledged_by ∧
      a2.acknowledged_at = c6Alert.acknowledged_at ∧
      a2 ∈ get_active_alerts
        { c6State with active_alerts := [] ++ (("d", 0), a2) :: [] }
        none none :=
  ⟨⟨rfl, by simp, rfl, rfl, rfl, rfl, by decide⟩,
   c6_recurrence_reactivates c6State c6Det 100 [] [] ("d", 0) c6Alert
     rfl (by simp) rfl rfl rfl rfl (by decide)⟩

/-! ## C2 -/

/-- A Tier0 alert on a life-critical healthcare device with no unusual
network traffic, for C2. -/
def c2Alert : RAlert :=
  { alert_id := "al1", severity := 0, sector := "healthcare",
    device_type := "infusion_pump", device_id := "dev1",
    network_traffic_mbps := 0, raw_mentions_gps := false }

/-- C2 fails on the code as stated: with the default configuration, the
action list for a Tier0 alert on a life-critical healthcare device does
contain an `isolate_device` action, appended by the severity-wide P0
fallback (it is approval-gated, but present). -/
theorem c2_counterexample :
    ∃ a ∈ determine_response_actions defaultRespConfig c2Alert,
      a.action = ActionType.isolate_device := by
  refine ⟨{ action := .isolate_device, target := "dev1",
            reason := "Critical threat detected",
            requires_approval := true, priority := none }, ?_, rfl⟩
  have h0 : ¬ ((0:ℚ) > 200) := by norm_num
  simp [determine_response_actions, c2Alert, healthcare_response_logic,
    lifeCritical, defaultRespConfig, h0]

/-- C2, amended: for every configuration and every Tier0 alert on a
life-critical healthcare device, the action list contains no quarantine
action; every isolate action in it carries
`requires_approval = REQUIRE_APPROVAL_P0`; and when that flag is set (its
default) and the alert shows no data-exfiltration traffic, the only
actions not requiring approval are the snapshot and notify actions. The
claim as stated fails because the severity-wide P0 fallback appends an
isolate action even for life-critical devices — see the counterexample. -/
theorem c2_life_critical_tier0_actions (cfg : RespConfig) (alert : RAlert)
    (hsec : alert.sector = "healthcare")
    (hdev : alert.device_type ∈ lifeCritical)
    (hsev : alert.severity = 0) :
    (∀ a ∈ determine_response_actions cfg alert,
      a.action ≠ ActionType.quarantine) ∧
    (∀ a ∈ determine_response_actions cfg alert,
      a.action = ActionType.isolate_device →
        a.requires_approval = cfg.require_approval_p0) ∧
    (cfg.require_approval_p0 = true → alert.network_traffic_mbps ≤ 200 →
      ∀ a ∈ determine_response_actions cfg alert,
        a.requires_approval = false →
          a.action = ActionType.snapshot_system ∨
          a.action = ActionType.notify_admin) := by
  have hacts : determine_response_actions cfg alert =
      [{ action := .snapshot_system, target := alert.device_id,
         reason := "Pre-response system snapshot",
         requires_approval := false, priority := none }]
      ++ ([{ action := .notify_admin, target := "clinical_engineering",
             reason := "Life-critical device anomaly - manual intervention required",
             requires_approval := false, priority := some "urgent" }]
          ++ (if alert.network_traffic_mbps > 200 then
            [{ action := .rate_limit, target := alert.device_id,
               reason := "Potential data exfiltration detected",
               requires_approval := false, priority := none }]
           else []))
      ++ [{ action := .isolate_device, target := alert.device_id,
            reason := "Critical threat detected",
            requires_approval := cfg.require_approval_p0, priority := none },
          { action := .notify_admin, target := "security_team",
            reason := "Critical alert requires immediate attention",
            requires_approval := false, priority := none }] := by
    rw [determine_response_actions, healthcare_response_logic]
    rw [hsec, hsev]
    simp [hdev]
  refine ⟨?_, ?_, ?_⟩
  · intro a ha
    rw [hacts] at ha
    by_cases ht : alert.network_traffic_mbps > 200
    · simp [ht] at ha
      rcases ha with rfl | rfl | rfl | rfl | rfl <;> simp
    · simp [ht] at ha
      rcases ha with rfl | rfl | rfl | rfl <;> simp
  · intro a ha hiso
    rw [hacts] at ha
    by_cases ht : alert.network_traffic_mbps > 200
    · simp [ht] at ha
      rcases ha with rfl | rfl | rfl | rfl | rfl <;> simp_all
    · simp [ht] at ha
      rcases ha with rfl | rfl | rfl | rfl <;> simp_all
  · intro hp0 htraffic a ha hnoappr
    have ht : ¬ (alert.network_traffic_mbps > 200) := not_lt.mpr htraffic
    rw [hacts] at ha
    simp [ht] at ha
    rcases ha with rfl | rfl | rfl | rfl
    · left; rfl
    · right; rfl
    · rw [hp0] at hnoappr; cases hnoappr
    · right; rfl

/-- Witness for the amended C2 at the default configuration and the
concrete alert `c2Alert`. -/
theorem c2_witness :
    (c2Alert.sector = "healthcare" ∧
      c2Alert.device_type ∈ lifeCritical ∧ c2Alert.severity = 0) ∧
    ((∀ a ∈ determine_response_actions defaultRespConfig c2Alert,
        a.action ≠ ActionType.quarantine) ∧
     (∀ a ∈ determine_response_actions defaultRespConfig c2Alert,
        a.action = ActionType.isolate_device →
          a.requires_approval = defaultRespConfig.require_approval_p0) ∧
     (defaultRespConfig.require_approval_p0 = true →
      c2Alert.network_traffic_mbps ≤ 200 →
      ∀ a ∈ determine_response_actions defaultRespConfig c2Alert,
        a.requires_approval = false →
          a.action = ActionType.snapshot_system ∨
          a.action = ActionType.notify_admin)) :=
  ⟨⟨rfl, by decide, rfl⟩,
   c2_life_critical_tier0_actions defaultRespConfig c2Alert rfl (by decide) rfl⟩

/-! ## C7 -/

/-- C7: rollback requires status completed. Whenever the history contains a
record with the requested id, rollback fails with the invalid-state error
if that record is not completed (in particular when pending or failed); on
a completed record it succeeds, marking the record rolled back in place,
and a second rollback of the same id on the resulting history fails with
the invalid-state error. -/
theorem c7_rollback_requires_completed (hist : List RespRecord)
    (id now now2 : Nat) (r : RespRecord)
    (hfind : findResp hist id = some r) :
    (r.status ≠ RespStatus.completed →
      rollback_response hist id now = .error .invalidState) ∧
    (r.status = RespStatus.completed →
      ∃ hist2 : List RespRecord,
        rollback_response hist id now =
          .ok ({ r with
                 status := .rolled_back
                 rolled_back_at := some now }, hist2) ∧
        rollback_response hist2 id now2 = .error .invalidState) := by
  induction hist with
  | nil => cases hfind
  | cons h t ih =>
    by_cases hid : h.response_id = id
    · have hr : r = h := by
        have : findResp (h :: t) id = some h := by
          simp [findResp, List.find?, hid]
        rw [this] at hfind
        exact (Option.some.injEq _ _ ▸ hfind.symm)
      subst hr
      constructor
      · intro hne
        have : ¬ (r.status = RespStatus.completed) := hne
        simp [rollback_response, hid, this]
      · intro hc
        refine ⟨{ r with
                  status := .rolled_back
                  rolled_back_at := some now } :: t, ?_, ?_⟩
        · simp [rollback_response, hid, hc]
        · simp [rollback_response, hid]
    · have hbeq : (h.response_id == id) = false := by
        simp [hid]
      have hfind2 : findResp t id = some r := by
        simpa [findResp, List.find?, hbeq] using hfind
      have iht := ih hfind2
      constructor
      · intro hne
        have := iht.1 hne
        simp [rollback_response, hid, this]
      · intro hc
        rcases iht.2 hc with ⟨t2, hok, herr⟩
        refine ⟨h :: t2, ?_, ?_⟩
        · simp [rollback_response, hid, hok]
        · simp [rollback_response, hid, herr]

/-- A completed isolate action, for the C7 witness. -/
def c7Record : RespRecord :=
  { response_id := 7, alert_id := "al1", action := .isolate_device,
    target := "dev1", reason := "Critical threat detected",
    status := .completed, created_at := 0, executed_at := some 1,
    completed_at := some 2, success := some true,
    output := some "Device dev1 isolated successfully. Network access revoked.",
    rolled_back_at := none }

/-- A pending notify action with a different id, for the C7 witness. -/
def c7Pending : RespRecord :=
  { response_id := 8, alert_id := "al1", action := .notify_admin,
    target := "security_team",
    reason := "Critical alert requires immediate attention",
    status := .pending, created_at := 0, executed_at := none,
    completed_at := none, success := none, output := none,
    rolled_back_at := none }

/-- Witness for C7: on the completed record the double-rollback clause
applies, and on the pending record the invalid-state clause applies. -/
theorem c7_witness :
    (findResp [c7Record, c7Pending] 7 = some c7Record ∧
      c7Record.status = RespStatus.completed ∧
      ∃ hist2 : List RespRecord,
        rollback_response [c7Record, c7Pending] 7 10 =
          .ok ({ c7Record with
                 status := .rolled_back
                 rolled_back_at := some 10 }, hist2) ∧
        rollback_response hist2 7 11 = .error .invalidState) ∧
    (findResp [c7Record, c7Pending] 8 = some c7Pending ∧
      c7Pending.status ≠ RespStatus.completed ∧
      rollback_response [c7Record, c7Pending] 8 10 = .error .invalidState) :=
  ⟨⟨by decide, rfl,
    (c7_rollback_requires_completed [c7Record, c7Pending] 7 10 11 c7Record
      (by decide)).2 rfl⟩,
   ⟨by decide, by decide,
    (c7_rollback_requires_completed [c7Record, c7Pending] 8 10 11 c7Pending
      (by decide)).1 (by decide)⟩⟩

/-! ## C9 -/

/-- C9: with `AUTO_RESPONSE_ENABLED` false, `execute_response` on an action
that does not require approval does not run the effect: the returned record
keeps status pending with null execution timestamps, it is parked in the
pending-approvals index and appended to the history, and the resulting
record and state are identical to what the approval-gated path produces for
the same action. -/
theorem c9_disabled_auto_response_parks_action (cfg : RespConfig)
    (act : ActionSpec) (alert_id : String) (st : RespState) (now rid : Nat)
    (hcfg : cfg.auto_response_enabled = false)
    (hact : act.requires_approval = false) :
    (execute_response cfg act alert_id st now rid).1.status =
      RespStatus.pending ∧
    (execute_response cfg act alert_id st now rid).1.executed_at = none ∧
    (execute_response cfg act alert_id st now rid).1.completed_at = none ∧
    (execute_response cfg act alert_id st now rid).2.pending_approvals =
      st.pending_approvals ++
        [(rid, (execute_response cfg act alert_id st now rid).1)] ∧
    (execute_response cfg act alert_id st now rid).2.response_history =
      st.response_history ++
        [(execute_response cfg act alert_id st now rid).1] ∧
    execute_response cfg { act with requires_approval := true }
        alert_id st now rid =
      execute_response cfg act alert_id st now rid := by
  simp [execute_response, hcfg, hact]

/-- A snapshot action that does not require approval, for the C9 witness. -/
def c9Act : ActionSpec :=
  { action := .snapshot_system, target := "dev1",
    reason := "Pre-response system snapshot", requires_approval := false,
    priority := none }

/-- The configuration with automatic responses disabled, for the C9
witness. -/
def c9Cfg : RespConfig :=
  { auto_response_enabled := false, require_approval_p0 := true,
    require_approval_p1 := true }

/-- Witness for C9 at the empty response state. -/
theorem c9_witness :
    (c9Cfg.auto_response_enabled = false ∧
      c9Act.requires_approval = false) ∧
    ((execute_response c9Cfg c9Act "al1" ⟨[], []⟩ 5 1).1.status =
        RespStatus.pending ∧
     (execute_response c9Cfg c9Act "al1" ⟨[], []⟩ 5 1).1.executed_at = none ∧
     (execute_response c9Cfg c9Act "al1" ⟨[], []⟩ 5 1).1.completed_at = none ∧
     (execute_response c9Cfg c9Act "al1" ⟨[], []⟩ 5 1).2.pending_approvals =
       ([] : List (Nat × RespRecord)) ++
         [(1, (execute_response c9Cfg c9Act "al1" ⟨[], []⟩ 5 1).1)] ∧
     (execute_response c9Cfg c9Act "al1" ⟨[], []⟩ 5 1).2.response_history =
       ([] : List RespRecord) ++
         [(execute_response c9Cfg c9Act "al1" ⟨[], []⟩ 5 1).1] ∧
     execute_response c9Cfg { c9Act with requires_approval := true }
         "al1" ⟨[], []⟩ 5 1 =
       execute_response c9Cfg c9Act "al1" ⟨[], []⟩ 5 1) :=
  ⟨⟨rfl, rfl⟩,
   c9_disabled_auto_response_parks_action c9Cfg c9Act "al1" ⟨[], []⟩ 5 1
     rfl rfl⟩

end SmoothOperator
